import Mathlib

/-!
Verification development for the multi-database MCP server
(connection registry, statement-safety validation pipeline, and
per-engine execution dispatcher).

The definitions below are a shallow embedding of the Python source:
`src/utils/security.py` (SecurityValidator), `src/utils/validators.py`
(CredentialValidator, QueryValidator), `src/database/config.py`
(DatabaseConfig), `src/database/connection.py` (MultiDatabaseManager)
and `src/tools/query_tools.py` (execute_query tool).

External effects (the MD5 digest, the filesystem, the wall clock and the
database drivers) are passed in as an explicit environment `Env`, so every
registry operation is a pure function of (environment, state, arguments).
All statement text handled by the server is ASCII, and the embedding of
the Python string primitives (`strip`, `upper`, `lower`, `re.search`)
models their behaviour on the ASCII fragment.
-/

set_option maxRecDepth 4000

namespace DatabaseMCP

/-! ## Python string primitives -/

/-- ASCII word character, the `\w` class of Python's `re` on these inputs. -/
def isWordChar (c : Char) : Bool :=
  c.isAlpha || c.isDigit || c == '_'

/-- ASCII whitespace, the `\s` class of Python's `re` and the default
`str.strip` characters. -/
def isSpaceChar (c : Char) : Bool :=
  c == ' ' || c == '\t' || c == '\n' || c == '\r' || c == '\x0b' || c == '\x0c'

/-- Model of Python `str.strip()` on a character list. -/
def pyStripL (l : List Char) : List Char :=
  ((l.dropWhile isSpaceChar).reverse.dropWhile isSpaceChar).reverse

/-- Model of Python `str.strip()`. -/
def pyStrip (s : String) : String := String.mk (pyStripL s.toList)

/-- Model of Python `str.upper()` (ASCII). -/
def pyUpper (s : String) : String := String.mk (s.toList.map Char.toUpper)

/-- Model of Python `str.lower()` (ASCII). -/
def pyLower (s : String) : String := String.mk (s.toList.map Char.toLower)

/-- Does `l` start with `pre`?  Models Python `str.startswith`. -/
def startsWithL : List Char → List Char → Bool
  | [], _ => true
  | _ :: _, [] => false
  | a :: as, b :: bs => a == b && startsWithL as bs

/-- Substring containment: models Python `sub in s` for character lists. -/
def containsL (sub : List Char) : List Char → Bool
  | [] => startsWithL sub []
  | c :: rest => startsWithL sub (c :: rest) || containsL sub rest

/-- Substring containment on strings: models Python `sub in s`. -/
def containsStr (s sub : String) : Bool := containsL sub.toList s.toList

/-- Does `l` end with `suf`?  Models Python `str.endswith` / an anchored
`$` regex suffix. -/
def endsWithL (suf l : List Char) : Bool := startsWithL suf.reverse l.reverse

/-- Number of `(` characters in the statement: the source's
`query_upper.count('(')` nesting measure. -/
def countParen (s : String) : Nat := s.toList.count '('

/-! ## A tiny regular-expression fragment

`src/utils/security.py` uses `re.search` with a fixed set of patterns built
from literals, `\b`, `\s+`, `\s*`, `.*` (with and without `re.DOTALL`),
`[^\r\n]*` and `\w+`.  We embed exactly this fragment.  A pattern is a token
list; matching is an NFA-style forward run over (previous character,
remaining input) states, which decides match existence — the same question
`re.search` answers. -/

inductive Tok where
  | lit : List Char → Tok  -- a literal
  | wordB : Tok            -- word boundary
  | ws0 : Tok              -- zero or more whitespace
  | ws1 : Tok              -- one or more whitespace
  | anyStar : Tok          -- any run without a newline
  | anyStarNL : Tok        -- any run, newlines included (re.DOTALL)
  | notCRLF0 : Tok         -- any run without CR or LF
  | word1 : Tok            -- one or more word characters
deriving Repr, DecidableEq

/-- All states reachable by consuming zero or more characters
satisfying `ok`. -/
def charRun (ok : Char → Bool) : Option Char → List Char → List (Option Char × List Char)
  | prev, [] => [(prev, [])]
  | prev, c :: rest =>
    (prev, c :: rest) :: (if ok c then charRun ok (some c) rest else [])

/-- Is there a word boundary between the previous character and the next? -/
def isBoundary (prev next : Option Char) : Bool :=
  (match prev with | none => false | some c => isWordChar c)
    != (match next with | none => false | some c => isWordChar c)

/-- Consume a literal from the input, tracking the previous character. -/
def dropLit : List Char → Option Char → List Char → Option (Option Char × List Char)
  | [], prev, s => some (prev, s)
  | _ :: _, _, [] => none
  | a :: as, _, b :: bs => if a == b then dropLit as (some b) bs else none

/-- One token's transition on a single state. -/
def stepTok : Tok → Option Char × List Char → List (Option Char × List Char)
  | .lit w, st =>
    match dropLit w st.1 st.2 with
    | some st' => [st']
    | none => []
  | .wordB, st => if isBoundary st.1 st.2.head? then [st] else []
  | .ws0, st => charRun isSpaceChar st.1 st.2
  | .ws1, st =>
    match st.2 with
    | c :: rest => if isSpaceChar c then charRun isSpaceChar (some c) rest else []
    | [] => []
  | .anyStar, st => charRun (fun c => c != '\n') st.1 st.2
  | .anyStarNL, st => charRun (fun _ => true) st.1 st.2
  | .notCRLF0, st => charRun (fun c => c != '\r' && c != '\n') st.1 st.2
  | .word1, st =>
    match st.2 with
    | c :: rest => if isWordChar c then charRun isWordChar (some c) rest else []
    | [] => []

/-- Run a whole token list over a state set. -/
def runToks : List Tok → List (Option Char × List Char) → List (Option Char × List Char)
  | [], sts => sts
  | t :: ts, sts => runToks ts ((sts.map (stepTok t)).flatten)

/-- Does the pattern match starting exactly here? -/
def matchesAt (pat : List Tok) (prev : Option Char) (s : List Char) : Bool :=
  !(runToks pat [(prev, s)]).isEmpty

/-- Try the pattern at every start position. -/
def searchFrom (pat : List Tok) : Option Char → List Char → Bool
  | prev, s =>
    matchesAt pat prev s ||
      (match s with
       | [] => false
       | c :: rest => searchFrom pat (some c) rest)

/-- Model of Python `re.search(pat, s) is not None`. -/
def rsearch (pat : List Tok) (s : String) : Bool := searchFrom pat none s.toList

def litT (w : String) : Tok := .lit w.toList

/-- The compiled form of the source's `rf"\b{op}\b"` patterns.  The input is
upper-cased before searching, so the `re.IGNORECASE` flag is modelled by
upper-case literals. -/
def wordPat (w : String) : List Tok := [.wordB, litT w, .wordB]

/-! ## SecurityValidator (`src/utils/security.py`) -/

/-- `SecurityValidator.allowed_operations`. -/
def allowedOperations : List String :=
  ["SELECT", "SHOW", "DESCRIBE", "DESC", "EXPLAIN", "WITH", "PRAGMA"]

/-- `SecurityValidator.dangerous_operations`.  The source keeps these in a
Python set; the fixed order below only determines which matching verb a
security report happens to name first. -/
def dangerousOperations : List String :=
  ["INSERT", "UPDATE", "DELETE", "DROP", "CREATE", "ALTER", "TRUNCATE",
   "REPLACE", "MERGE", "CALL", "EXEC", "GRANT", "REVOKE", "SET", "DECLARE"]

/-- The file-operation patterns of `_contains_file_operations`.  Unlike the
compiled pattern lists, this helper calls `re.search` without
`re.IGNORECASE`, so its lower-case literals are matched verbatim against the
upper-cased statement (and therefore cannot fire on it); the literals stay
lower-case here to mirror that. -/
def filePatterns : List (List Tok) :=
  [ [.wordB, litT "into", .ws1, litT "outfile", .wordB]
  , [.wordB, litT "into", .ws1, litT "dumpfile", .wordB]
  , wordPat "load_file"
  , [.wordB, litT "select", .anyStar, litT "into", .anyStar, litT "from", .wordB] ]

/-- `SecurityValidator.security_patterns`, each with the Python pattern text
used in report messages. -/
def securityPatterns : List (List Tok × String) :=
  [ ([.wordB, litT "DROP", .ws1, litT "DATABASE", .wordB], "\\bdrop\\s+database\\b")
  , ([.wordB, litT "DROP", .ws1, litT "USER", .wordB], "\\bdrop\\s+user\\b")
  , ([.wordB, litT "CREATE", .ws1, litT "USER", .wordB], "\\bcreate\\s+user\\b")
  , ([.wordB, litT "ALTER", .ws1, litT "USER", .wordB], "\\balter\\s+user\\b")
  , (wordPat "GRANT", "\\bgrant\\b")
  , (wordPat "REVOKE", "\\brevoke\\b")
  , (wordPat "PG_SLEEP", "\\bpg_sleep\\b")
  , (wordPat "SLEEP", "\\bsleep\\b")
  , (wordPat "WAITFOR", "\\bwaitfor\\b")
  , (wordPat "DELAY", "\\bdelay\\b")
  , ([litT ";", .ws0, .word1], ";\\s*\\w+")
  , ([litT "--", .ws0, .notCRLF0], "--\\s*[^\\r\\n]*")
  , ([litT "/*", .anyStarNL, litT "*/"], "/\\*.*?\\*/")
  , ([.wordB, litT "UNION", .ws1, litT "ALL", .ws1, litT "SELECT", .anyStar,
      .wordB, litT "FROM", .ws1, litT "INFORMATION_SCHEMA", .wordB],
     "\\bunion\\s+all\\s+select.*\\bfrom\\s+information_schema\\b")
  , ([.wordB, litT "UNION", .ws1, litT "SELECT", .anyStar,
      .wordB, litT "PASSWORD", .wordB],
     "\\bunion\\s+select.*\\bpassword\\b")
  , ([.wordB, litT "UNION", .ws1, litT "SELECT", .anyStar,
      .wordB, litT "USER", .wordB, .anyStar, .wordB, litT "FROM", .wordB],
     "\\bunion\\s+select.*\\buser\\b.*\\bfrom\\b")
  , (wordPat "XP_CMDSHELL", "\\bxp_cmdshell\\b")
  , (wordPat "SP_EXECUTESQL", "\\bsp_executesql\\b")
  , (wordPat "DBMS_OUTPUT", "\\bdbms_output\\b")
  , ([.wordB, litT "SYS._EVAL", .wordB], "\\bsys\\._eval\\b")
  , ([.wordB, litT "INTO", .ws1, litT "OUTFILE", .wordB], "\\binto\\s+outfile\\b")
  , ([.wordB, litT "INTO", .ws1, litT "DUMPFILE", .wordB], "\\binto\\s+dumpfile\\b")
  , (wordPat "LOAD_FILE", "\\bload_file\\b")
  , ([.wordB, litT "SELECT", .anyStar, litT "INTO", .anyStar, litT "FROM", .wordB],
     "\\bselect.*into.*from\\b")
  , ([.wordB, litT "MASTER..XP_"], "\\bmaster\\.\\.xp_")
  , (wordPat "OPENROWSET", "\\bopenrowset\\b")
  , (wordPat "OPENDATASOURCE", "\\bopendatasource\\b") ]

/-- `SecurityValidator.metadata_patterns`. -/
def metadataPatterns : List (List Tok) :=
  [ wordPat "INFORMATION_SCHEMA", wordPat "PG_CATALOG", wordPat "PG_TABLES"
  , wordPat "PG_CLASS", wordPat "PG_NAMESPACE", wordPat "PG_ATTRIBUTE"
  , wordPat "PG_STATS", wordPat "SQLITE_MASTER", wordPat "MYSQL"
  , wordPat "PERFORMANCE_SCHEMA" ]

/-- The `\bunion\s+.*\binformation_schema\b` check of
`_validate_metadata_access`.  This inline `re.search` also lacks
`re.IGNORECASE`, so its lower-case literals are kept verbatim (they cannot
match the upper-cased statement the validator passes in). -/
def unionInfoSchemaPat : List Tok :=
  [.wordB, litT "union", .ws1, .anyStar, .wordB, litT "information_schema", .wordB]

/-- `SecurityValidator._contains_file_operations`. -/
def contains_file_operations (qU : String) : Bool :=
  filePatterns.any (fun p => rsearch p qU)

/-- `SecurityValidator._contains_dangerous_operations`. -/
def contains_dangerous_operations (qU : String) : Bool :=
  dangerousOperations.any (fun op => rsearch (wordPat op) qU)

/-- `SecurityValidator._contains_injection_patterns`. -/
def contains_injection_patterns (qU : String) : Bool :=
  securityPatterns.any (fun p => rsearch p.1 qU)

/-- `SecurityValidator._contains_metadata_access`. -/
def contains_metadata_access (qU : String) : Bool :=
  metadataPatterns.any (fun p => rsearch p qU)

/-- `SecurityValidator._validate_metadata_access`: metadata queries are let
through only when free of file operations and UNION-with-information_schema,
and with at most 2 parentheses. -/
def validate_metadata_access (qU : String) : Bool :=
  if contains_file_operations qU then false
  else if rsearch unionInfoSchemaPat qU then false
  else decide (countParen qU ≤ 2)

/-- The general cap of `_has_excessive_nesting` (`nesting_limit = 3`). -/
def nesting_limit : Nat := 3

/-- `SecurityValidator._has_excessive_nesting`. -/
def has_excessive_nesting (qU : String) : Bool :=
  decide (nesting_limit < countParen qU)

/-- The leading-verb allow-list test of `is_safe_query`. -/
def startsWithAllowed (qU : String) : Bool :=
  allowedOperations.any (fun op => startsWithL op.toList qU.toList)

/-- `SecurityValidator.is_safe_query`: the layered lexical pipeline, in the
source's order (empty gate, leading verb, length, file operations, denied
verbs, injection patterns, metadata exception, nesting cap). -/
def is_safe_query (query : String) : Bool :=
  if query == "" || pyStrip query == "" then false
  else
    let qU := pyUpper (pyStrip query)
    if !(startsWithAllowed qU) then false
    else if decide (10000 < query.length) then false
    else if contains_file_operations qU then false
    else if contains_dangerous_operations qU then false
    else if contains_injection_patterns qU then false
    else if contains_metadata_access qU then validate_metadata_access qU
    else if has_excessive_nesting qU then false
    else true

/-- `ValidationReport` as built by `SecurityValidator.get_security_report`. -/
structure SecurityReport where
  query : String
  is_safe : Bool
  starts_with_allowed_operation : Bool
  no_dangerous_operations : Bool
  no_file_operations : Bool
  no_injection_patterns : Bool
  acceptable_nesting : Bool
  legitimate_metadata_access : Bool
  violations : List String
  recommendations : List String
deriving Repr, DecidableEq

/-- The `query[:100] + "..."` truncation of the report. -/
def truncatedQuery (query : String) : String :=
  if decide (100 < query.length) then String.mk (query.toList.take 100) ++ "..." else query

/-- `SecurityValidator.get_security_report`.  The dangerous-operation and
injection loops of the source append the first matching pattern's text and
break, which `List.find?` models. -/
def get_security_report (query : String) : SecurityReport :=
  if query == "" || pyStrip query == "" then
    { query := truncatedQuery query
      is_safe := false
      starts_with_allowed_operation := false
      no_dangerous_operations := true
      no_file_operations := true
      no_injection_patterns := true
      acceptable_nesting := true
      legitimate_metadata_access := true
      violations := ["Empty query"]
      recommendations := [] }
  else
    let qU := pyUpper (pyStrip query)
    let startsOK := startsWithAllowed qU
    let dangHit := dangerousOperations.find? (fun op => rsearch (wordPat op) qU)
    let fileHit := contains_file_operations qU
    let injHit := securityPatterns.find? (fun p => rsearch p.1 qU)
    let nestBad := has_excessive_nesting qU
    let metaBad := contains_metadata_access qU && !(validate_metadata_access qU)
    let isSafe := startsOK && dangHit.isNone && !fileHit && injHit.isNone
      && !nestBad && !metaBad
    { query := truncatedQuery query
      is_safe := isSafe
      starts_with_allowed_operation := startsOK
      no_dangerous_operations := dangHit.isNone
      no_file_operations := !fileHit
      no_injection_patterns := injHit.isNone
      acceptable_nesting := !nestBad
      legitimate_metadata_access := !metaBad
      violations :=
        (if startsOK then [] else ["Query doesn't start with allowed operation"]) ++
        (match dangHit with
         | some op => ["Contains dangerous operation: \\b" ++ op ++ "\\b"]
         | none => []) ++
        (if fileHit then ["Contains file operations"] else []) ++
        (match injHit with
         | some p => ["Security risk: " ++ p.2]
         | none => []) ++
        (if nestBad then ["Excessive query nesting"] else []) ++
        (if metaBad then ["Suspicious metadata access pattern"] else [])
      recommendations :=
        (if startsOK then [] else ["Use SELECT, SHOW, DESCRIBE, or EXPLAIN"]) ++
        (if isSafe then ["Query appears safe for execution"]
         else ["Query should be modified to address security violations"]) }

/-! ## DatabaseConfig (`src/database/config.py`) -/

/-- Credentials are the string-valued dictionary the tools pass in. -/
abbrev Credentials := List (String × String)

/-- Python `credentials.get(key, '')`. -/
def credGet (creds : Credentials) (k : String) : String :=
  match (List.find? (fun p => p.1 == k) creds) with
  | some p => p.2
  | none => ""

/-- Python `key in credentials and credentials[key]` (truthiness of the
value, i.e. a non-empty string). -/
def credHas (creds : Credentials) (k : String) : Bool :=
  match (List.find? (fun p => p.1 == k) creds) with
  | some p => p.2 != ""
  | none => false

namespace DatabaseConfig

/-- `DatabaseConfig.validate_db_type`. -/
def validate_db_type (db_type : String) : Bool :=
  (["postgresql", "mysql", "sqlite", "mongodb"] : List String).contains (pyLower db_type)

/-- `DatabaseConfig.get_default_port`: sqlite is file-based (`None`), and a
missing key also yields `None`. -/
def get_default_port (db_type : String) : Option Int :=
  if pyLower db_type == "postgresql" then some 5432
  else if pyLower db_type == "mysql" then some 3306
  else if pyLower db_type == "mongodb" then some 27017
  else none

/-- `DatabaseConfig.get_required_credentials` (`REQUIRED_CREDENTIALS`). -/
def get_required_credentials (db_type : String) : List String :=
  if pyLower db_type == "postgresql" then ["username", "password", "database"]
  else if pyLower db_type == "mysql" then ["username", "password", "database"]
  else if pyLower db_type == "sqlite" then ["database_path"]
  else if pyLower db_type == "mongodb" then ["username", "password", "database"]
  else []

end DatabaseConfig

/-! ## CredentialValidator (`src/utils/validators.py`) -/

/-- The filesystem and hostname-parsing facts the validator consults:
`os.path.exists` and `urlparse("http://" + host).hostname` being truthy. -/
structure SysEnv where
  dirExists : String → Bool
  hostParses : String → Bool

namespace CredentialValidator

/-- `CredentialValidator._is_suspicious_path`. -/
def is_suspicious_path (path : String) : Bool :=
  let p := pyLower path
  (["/etc/", "/proc/", "/sys/", "/dev/", "/root/", "c:\\windows\\",
    "c:\\system32\\", "/var/lib/mysql/", "/var/lib/postgresql/",
    "..", "~", "$"] : List String).any (fun sus => containsStr p sus)

/-- Model of `os.path.dirname` (posixpath): everything up to the last `/`,
with trailing separators stripped unless the head is all separators. -/
def dirname (path : String) : String :=
  let headRev := path.toList.reverse.dropWhile (fun c => c != '/')
  if headRev.isEmpty then ""
  else if headRev.all (fun c => c == '/') then String.mk headRev
  else String.mk (headRev.dropWhile (fun c => c == '/')).reverse

/-- The `.*\.onion$` suspicious-host pattern (IGNORECASE). -/
def endsWithOnion (host : String) : Bool :=
  endsWithL ".onion".toList (pyLower host).toList

/-- Split a character list at every occurrence of `sep` (a structural model
of Python `str.split(sep)` for a single-character separator). -/
def splitOnChar (sep : Char) : List Char → List (List Char)
  | [] => [[]]
  | c :: rest =>
    match splitOnChar sep rest with
    | [] => [[]]
    | h :: t => if c == sep then [] :: h :: t else (c :: h) :: t

/-- The `^\d+\.\d+\.\d+\.\d+$` raw-IP pattern. -/
def isDottedQuad (host : String) : Bool :=
  let parts := splitOnChar '.' host.toList
  parts.length == 4 && parts.all (fun p => !p.isEmpty && p.all Char.isDigit)

/-- `CredentialValidator._validate_host`. -/
def validate_host (sys : SysEnv) (host : String) : Bool :=
  if host == "" || decide (255 < host.length) then false
  else if host == "localhost" || host == "127.0.0.1" || host == "::1" then true
  else if !(sys.hostParses host) then false
  else if (endsWithOnion host || isDottedQuad host) && host != "127.0.0.1" then false
  else true

/-- `CredentialValidator._validate_username`. -/
def validate_username (username : String) : Bool :=
  if username == "" || decide (100 < username.length) then false
  else if !(username.toList.all (fun c =>
      c.isAlpha || c.isDigit || c == '_' || c == '-' || c == '.' || c == '@')) then false
  else if username.toList.any (fun c =>
      c == ';' || c == '\'' || c == '"' || c == '\\') then false
  else if (["union", "select", "drop", "create", "alter", "insert", "update",
            "delete"] : List String).any
      (fun w => containsStr (pyLower username) w) then false
  else true

/-- `CredentialValidator._validate_password`: non-empty, at most 200
characters, and no control characters outside tab/newline/return. -/
def validate_password (password : String) : Bool :=
  if password == "" || decide (200 < password.length) then false
  else password.toList.all (fun c =>
    decide (32 ≤ c.toNat) || c == '\t' || c == '\n' || c == '\r')

/-- `CredentialValidator._validate_database_name`. -/
def validate_database_name (database : String) : Bool :=
  if database == "" || decide (100 < database.length) then false
  else if !(database.toList.all (fun c =>
      c.isAlpha || c.isDigit || c == '_' || c == '-')) then false
  else !((["mysql", "information_schema", "performance_schema", "sys",
           "postgres", "template0", "template1", "admin", "local",
           "config"] : List String).contains (pyLower database))

/-- `CredentialValidator._validate_sqlite_credentials`. -/
def validate_sqlite_credentials (sys : SysEnv) (creds : Credentials) : Bool :=
  let database_path := credGet creds "database_path"
  if database_path == "" then false
  else if is_suspicious_path database_path then false
  else
    let directory := dirname database_path
    if directory != "" && !(sys.dirExists directory) then false
    else true

/-- `CredentialValidator._validate_network_db_credentials`. -/
def validate_network_db_credentials (sys : SysEnv) (host : String)
    (creds : Credentials) : Bool :=
  validate_host sys host
    && validate_username (credGet creds "username")
    && validate_password (credGet creds "password")
    && validate_database_name (credGet creds "database")

/-- `CredentialValidator.validate_credentials`. -/
def validate_credentials (sys : SysEnv) (db_type host : String)
    (creds : Credentials) : Bool :=
  if !(DatabaseConfig.validate_db_type db_type) then false
  else if !((DatabaseConfig.get_required_credentials db_type).all
      (fun f => credHas creds f)) then false
  else if db_type == "sqlite" then validate_sqlite_credentials sys creds
  else validate_network_db_credentials sys host creds

end CredentialValidator

/-! ## MultiDatabaseManager (`src/database/connection.py`)

`σ` is the type of the opaque driver session handles.  All driver behaviour
(psycopg2 / mysql.connector / sqlite3 / pymongo connect, execute and close)
lives in the environment; driver exceptions are `Except.error` values. -/

/-- The result envelope a driver execution produces.  The tabular payload
(columns / rows) comes from external cursor objects and is abstracted; the
claims concern the `success` flag and the error message. -/
structure QueryResult where
  success : Bool
  error : Option String := none
deriving Repr, DecidableEq

/-- The external world of the manager: MD5, the filesystem, the clock and
the database drivers. -/
structure Env (σ : Type) where
  sys : SysEnv
  /-- `hashlib.md5(key_data.encode()).hexdigest()`. -/
  md5 : String → String
  /-- `time.time()` (an integral clock suffices for the claims). -/
  now : Nat
  /-- The `_connect_*` adapters: db_type, host, port, credentials. -/
  engineConnect : String → String → Option Int → Credentials → Except String σ
  /-- The `_execute_*_query` adapters: db_type, session, database, query,
  schema.  A `.error` models a raised driver exception; an
  `.ok` with `success := false` models MongoDB's structured refusal. -/
  engineExecute : String → σ → String → String → Option String → Except String QueryResult
  /-- `connection.close()`. -/
  engineClose : σ → Except String Unit

/-- `ConnectionInfo` of `src/database/connection.py`. -/
structure ConnectionInfo (σ : Type) where
  connection_id : String
  db_type : String
  host : String
  port : Option Int
  database : String
  created_at : Nat
  connection : σ
  last_used : Nat
  query_count : Nat
deriving Repr, DecidableEq

/-- The mutable state of `MultiDatabaseManager`: the connection dictionary
(an association list with unique keys, in insertion order, as a Python dict)
plus the loaded configuration and driver availability flags. -/
structure Manager (σ : Type) where
  connections : List (String × ConnectionInfo σ)
  connection_timeout : Nat := 30
  max_connections : Nat := 10
  query_timeout : Nat := 60
  postgres_available : Bool := true
  mysql_available : Bool := true
  sqlite_available : Bool := true
  mongodb_available : Bool := true
deriving Repr, DecidableEq

/-- The distinct `ValueError`s `connect_database` can raise, by the message
they carry in the source. -/
inductive ConnectErr where
  | unsupportedType (db_type : String)
  | driverUnavailable (db_type : String)
  | invalidCredentials
  | capacityReached (max : Nat)
  | connectionFailed (msg : String)
deriving Repr, DecidableEq

/-- The `ValueError`s `MultiDatabaseManager.execute_query` raises before
touching a driver. -/
inductive ExecErr where
  | invalidConnectionId
  | queryNotAllowed
deriving Repr, DecidableEq

/-- Does `db_type` match one of the exact dispatch branches
(`db_type == 'postgresql'` etc.) of the source? -/
def exact_db_type (db_type : String) : Bool :=
  db_type == "postgresql" || db_type == "mysql"
    || db_type == "sqlite" || db_type == "mongodb"

/-- The driver-availability elif chain of `_validate_connection_request`,
collapsed to the condition under which no branch raises. -/
def driver_available {σ} (m : Manager σ) (db_type : String) : Bool :=
  if db_type == "postgresql" then m.postgres_available
  else if db_type == "mysql" then m.mysql_available
  else if db_type == "sqlite" then m.sqlite_available
  else if db_type == "mongodb" then m.mongodb_available
  else true

/-- `MultiDatabaseManager._generate_connection_id`:
`md5(f"{db_type}:{host}:{credentials.get('username','')}:{credentials.get('database','')}")`. -/
def generate_connection_id {σ} (env : Env σ) (db_type host : String)
    (creds : Credentials) : String :=
  env.md5 (db_type ++ ":" ++ host ++ ":" ++ credGet creds "username"
    ++ ":" ++ credGet creds "database")

/-- Dictionary lookup `connection_id in self.connections`. -/
def lookupConn {σ} (m : Manager σ) (cid : String) :
    Option (String × ConnectionInfo σ) :=
  List.find? (fun p => p.1 == cid) m.connections

/-- `MultiDatabaseManager._validate_connection_request`: type check, driver
check, credential check, then the capacity bound — in that order. -/
def validate_connection_request {σ} (env : Env σ) (m : Manager σ)
    (db_type host : String) (creds : Credentials) : Option ConnectErr :=
  if !(DatabaseConfig.validate_db_type db_type) then some (.unsupportedType db_type)
  else if !(driver_available m db_type) then some (.driverUnavailable db_type)
  else if !(CredentialValidator.validate_credentials env.sys db_type host creds)
    then some .invalidCredentials
  else if decide (m.max_connections ≤ m.connections.length)
    then some (.capacityReached m.max_connections)
  else none

/-- The port actually used: the caller's, or the engine default. -/
def effective_port (db_type : String) (port : Option Int) : Option Int :=
  match port with
  | some p => some p
  | none => DatabaseConfig.get_default_port db_type

/-- `MultiDatabaseManager.connect_database`.  Validation first (including
the capacity bound), then the fingerprint; an already-registered fingerprint
is returned unchanged; otherwise the matching adapter connects and a fresh
record is appended.  Raised errors leave the registry untouched. -/
def connect_database {σ} (env : Env σ) (m : Manager σ) (db_type host : String)
    (port : Option Int) (creds : Credentials) :
    Except ConnectErr String × Manager σ :=
  match validate_connection_request env m db_type host creds with
  | some e => (.error e, m)
  | none =>
    let port' := effective_port db_type port
    let cid := generate_connection_id env db_type host creds
    if (lookupConn m cid).isSome then (.ok cid, m)
    else if exact_db_type db_type then
      match env.engineConnect db_type host port' creds with
      | .error msg => (.error (.connectionFailed msg), m)
      | .ok conn =>
        let info : ConnectionInfo σ :=
          { connection_id := cid, db_type := db_type, host := host,
            port := port', database := credGet creds "database",
            created_at := env.now, connection := conn,
            last_used := env.now, query_count := 0 }
        (.ok cid, { m with connections := m.connections ++ [(cid, info)] })
    else (.error (.connectionFailed ("Unsupported database type: " ++ db_type)), m)

/-- The usage-accounting update `execute_query` performs on the record
before delegating: `last_used = time.time(); query_count += 1`. -/
def updateInfo {σ} (env : Env σ) (info : ConnectionInfo σ) : ConnectionInfo σ :=
  { info with last_used := env.now, query_count := info.query_count + 1 }

/-- The usage update applied to the connection dictionary: only the entry
under `cid` changes, and only in its usage fields. -/
def usage_update {σ} (env : Env σ) (cid : String)
    (l : List (String × ConnectionInfo σ)) : List (String × ConnectionInfo σ) :=
  l.map (fun p => if p.1 == cid then (p.1, updateInfo env p.2) else p)

/-- `MultiDatabaseManager.execute_query`: unknown id and unsafe statement
raise before any side effect; then the record's usage fields are updated and
the statement is delegated, with any driver exception caught and turned into
a `success := false` envelope. -/
def execute_query {σ} (env : Env σ) (m : Manager σ) (connection_id query : String)
    (schema : Option String) : Except ExecErr QueryResult × Manager σ :=
  match lookupConn m connection_id with
  | none => (.error .invalidConnectionId, m)
  | some (_, info) =>
    if !(is_safe_query query) then (.error .queryNotAllowed, m)
    else
      let info' := updateInfo env info
      let m' : Manager σ :=
        { m with connections := usage_update env connection_id m.connections }
      let res :=
        if exact_db_type info'.db_type then
          env.engineExecute info'.db_type info'.connection info'.database query schema
        else .error ("Unsupported database type: " ++ info'.db_type)
      match res with
      | .ok r => (.ok r, m')
      | .error msg => (.ok { success := false, error := some msg }, m')

/-- `MultiDatabaseManager.disconnect`: unknown ids report `false`; a failing
driver close is caught, reported `false`, and leaves the record in place;
otherwise the record is deleted and `true` returned. -/
def disconnect {σ} (env : Env σ) (m : Manager σ) (connection_id : String) :
    Bool × Manager σ :=
  match lookupConn m connection_id with
  | none => (false, m)
  | some (_, info) =>
    let closeRes :=
      if exact_db_type info.db_type then env.engineClose info.connection
      else Except.ok ()
    match closeRes with
    | .error _ => (false, m)
    | .ok _ =>
      (true, { m with connections :=
        m.connections.filter (fun p => p.1 != connection_id) })

/-- `MultiDatabaseManager.get_connection_info`. -/
def get_connection_info {σ} (m : Manager σ) (cid : String) :
    Option (ConnectionInfo σ) :=
  (lookupConn m cid).map (fun p => p.2)

/-- The staleness test of `cleanup_stale_connections`:
`current_time - conn_info.last_used > max_idle_time`. -/
def stalePred {σ} (env : Env σ) (max_idle_time : Nat)
    (p : String × ConnectionInfo σ) : Bool :=
  decide (max_idle_time < env.now - p.2.last_used)

/-- `MultiDatabaseManager.cleanup_stale_connections`: collect the stale ids,
disconnect each, and return the length of the collected list. -/
def cleanup_stale_connections {σ} (env : Env σ) (m : Manager σ)
    (max_idle_time : Nat) : Nat × Manager σ :=
  let stale := (m.connections.filter (stalePred env max_idle_time)).map (fun p => p.1)
  let m' := stale.foldl (fun acc cid => (disconnect env acc cid).2) m
  (stale.length, m')

/-! ## The execute_query tool (`src/tools/query_tools.py`) with
`QueryValidator.validate_query_params` (`src/utils/validators.py`) -/

/-- `QueryValidator.validate_query_params`: emptiness, length, limit bounds,
then schema shape — in the source's order. -/
def validate_query_params (query : String) (limit : Option Int)
    (schema : Option String) : Bool × String :=
  if query == "" || pyStrip query == "" then (false, "Query cannot be empty")
  else if decide (10000 < query.length) then
    (false, "Query too long (max 10000 characters)")
  else
    let limitCheck : Option (Bool × String) :=
      match limit with
      | some l =>
        if decide (l < 1) then some (false, "Limit must be a positive integer")
        else if decide (1000 < l) then some (false, "Limit cannot exceed 1000 rows")
        else none
      | none => none
    match limitCheck with
    | some r => r
    | none =>
      match schema with
      | some s =>
        if s == "" || !(s.toList.all (fun c => c.isAlpha || c.isDigit || c == '_'))
          then (false, "Invalid schema name format")
        else if decide (100 < s.length) then (false, "Schema name too long")
        else (true, "Query parameters are valid")
      | none => (true, "Query parameters are valid")

/-- The tool's responses, as built by `ResponseFormatter`. -/
inductive ToolResponse where
  | errorResponse (error : String) (error_code : String)
  | queryResponse (query : String) (result : QueryResult)
deriving Repr, DecidableEq

/-- The limit-appending step of the tool:
`if 'limit' not in query.lower().strip() and limit: query += f" LIMIT {min(limit, 1000)}"`. -/
def applied_query (query : String) (limit : Option Int) : String :=
  match limit with
  | some l =>
    if !(containsStr (pyStrip (pyLower query)) "limit") && l != 0 then
      query ++ " LIMIT " ++ toString (min l 1000)
    else query
  | none => query

/-- The messages of the `ValueError`s the manager raises, as caught by the
tool's outer handler. -/
def execErrMessage : ExecErr → String
  | .invalidConnectionId => "Invalid connection ID"
  | .queryNotAllowed => "Query not allowed - only read-only operations are permitted"

/-- The `execute_query` tool of `src/tools/query_tools.py`: parameter
validation, limit appending, connection lookup, delegation to the manager,
and envelope formatting. -/
def tool_execute_query {σ} (env : Env σ) (m : Manager σ)
    (connection_id query : String) (schema : Option String)
    (limit : Option Int) : ToolResponse × Manager σ :=
  match validate_query_params query limit schema with
  | (false, msg) =>
    (.errorResponse ("Invalid query parameters: " ++ msg) "INVALID_QUERY_PARAMS", m)
  | (true, _) =>
    let q := applied_query query limit
    match get_connection_info m connection_id with
    | none => (.errorResponse "Invalid connection ID" "INVALID_CONNECTION_ID", m)
    | some _ =>
      match execute_query env m connection_id q schema with
      | (.error e, m') =>
        (.errorResponse ("Error executing query: " ++ execErrMessage e) "QUERY_ERROR", m')
      | (.ok r, m') =>
        if r.success then (.queryResponse q r, m')
        else (.errorResponse ("Query execution failed: " ++ (r.error.getD "Unknown error"))
          "QUERY_EXECUTION_FAILED", m')

/-! ## Concrete fixtures used by counterexamples and witnesses -/

/-- A filesystem/hostname world where every directory exists and every host
parses. -/
def baseSys : SysEnv := { dirExists := fun _ => true, hostParses := fun _ => true }

/-- A well-behaved environment over unit session handles: a transparent
digest, clock at 1000, and drivers that succeed. -/
def baseEnv : Env Unit :=
  { sys := baseSys
    md5 := fun s => s
    now := 1000
    engineConnect := fun _ _ _ _ => .ok ()
    engineExecute := fun _ _ _ _ _ => .ok { success := true }
    engineClose := fun _ => .ok () }

/-- SQLite credentials naming one database file. -/
def credsA : Credentials := [("database_path", "a.db")]

/-- SQLite credentials naming a different database file. -/
def credsB : Credentials := [("database_path", "b.db")]

/-- The record `connect_database baseEnv _ "sqlite" "localhost" none credsA`
stores (its fingerprint under the transparent digest is
`"sqlite:localhost::"`). -/
def info0 : ConnectionInfo Unit :=
  { connection_id := "sqlite:localhost::", db_type := "sqlite",
    host := "localhost", port := none, database := "", created_at := 1000,
    connection := (), last_used := 1000, query_count := 0 }

/-- An empty registry whose capacity is a single connection. -/
def mgrEmpty1 : Manager Unit := { connections := [], max_connections := 1 }

/-- A registry at its configured maximum of one connection. -/
def mgrFull : Manager Unit :=
  { connections := [("sqlite:localhost::", info0)], max_connections := 1 }

/-- The same single-connection registry with spare capacity. -/
def mgrOne : Manager Unit :=
  { connections := [("sqlite:localhost::", info0)], max_connections := 10 }

/-- An environment whose drivers raise on every execution. -/
def envExecFail : Env Unit :=
  { baseEnv with engineExecute := fun _ _ _ _ _ => .error "boom" }

/-- An environment whose driver close always raises. -/
def envCloseFail : Env Unit :=
  { baseEnv with engineClose := fun _ => .error "close failed" }

/-- A stale record, idle since time zero. -/
def infoStale : ConnectionInfo Unit :=
  { info0 with connection_id := "stale", last_used := 0, created_at := 0 }

/-- A fresh record, used at time 990 against a clock at 1000. -/
def infoFresh : ConnectionInfo Unit :=
  { info0 with connection_id := "fresh", last_used := 990 }

/-- A two-entry registry with one stale and one fresh connection. -/
def mgrTwo : Manager Unit :=
  { connections := [("stale", infoStale), ("fresh", infoFresh)] }

/-- The spec's flat introspection example. -/
def flatMetaQuery : String :=
  "SELECT * FROM information_schema.columns WHERE table_name='t'"

/-- The flat example wrapped in two additional levels of subquery nesting
(parenthesis count 2). -/
def doubleWrapMetaQuery : String :=
  "SELECT * FROM (SELECT * FROM (SELECT * FROM information_schema.columns WHERE table_name='t') a) b"

/-- The flat example wrapped in three additional levels of subquery nesting
(parenthesis count 3). -/
def tripleWrapMetaQuery : String :=
  "SELECT * FROM (SELECT * FROM (SELECT * FROM (SELECT * FROM information_schema.columns WHERE table_name='t') a) b) c"

/-- The spec's denied-verb example. -/
def deniedVerbExample : String := "SELECT * FROM (DELETE FROM logs RETURNING *) x"

/-! ## C1 — connect idempotence -/

/-- Claim C1, counterexample: the capacity check of
`_validate_connection_request` runs before the fingerprint-reuse lookup of
`connect_database`, so once the registry holds the configured maximum the
claim fails.  Concretely: with `max_connections = 1`, a first connect
succeeds and registers fingerprint `"sqlite:localhost::"`; repeating the
identical request against the now-full registry raises the capacity error
instead of returning the same connection id. -/
theorem connect_at_capacity_not_idempotent :
    connect_database baseEnv mgrEmpty1 "sqlite" "localhost" none credsA
      = (Except.ok "sqlite:localhost::", mgrFull)
  ∧ lookupConn mgrFull "sqlite:localhost::" = some ("sqlite:localhost::", info0)
  ∧ mgrFull.connections.length = mgrFull.max_connections
  ∧ connect_database baseEnv mgrFull "sqlite" "localhost" none credsA
      = (Except.error (ConnectErr.capacityReached 1), mgrFull) :=
  ⟨rfl, rfl, rfl, rfl⟩

/-- Shared lemma: a connect whose fingerprint is already registered, issued
against a registry strictly below capacity with passing validation, returns
the registered fingerprint and leaves the state unchanged. -/
theorem connect_returns_existing {σ} (env : Env σ) (m : Manager σ)
    (db_type host : String) (port : Option Int) (creds : Credentials)
    (pr : String × ConnectionInfo σ)
    (htype : DatabaseConfig.validate_db_type db_type = true)
    (hdrv : driver_available m db_type = true)
    (hcred : CredentialValidator.validate_credentials env.sys db_type host creds = true)
    (hcap : m.connections.length < m.max_connections)
    (hreg : lookupConn m (generate_connection_id env db_type host creds) = some pr) :
    connect_database env m db_type host port creds
      = (Except.ok (generate_connection_id env db_type host creds), m) := by
  have hval : validate_connection_request env m db_type host creds = none := by
    unfold validate_connection_request
    simp [htype, hdrv, hcred, Nat.not_le.mpr hcap]
  unfold connect_database
  rw [hval]
  simp [hreg]

/-- Claim C1 (amended): repeating a connect whose fingerprint is still
registered, with the same engine kind, host, username and database, yields
the same connection id and leaves the registry unchanged (so the live count
does not increase) — provided the registry is strictly below the configured
maximum when the repeat arrives, since the capacity check precedes the
reuse lookup. -/
theorem connect_reuse_below_capacity {σ} (env : Env σ) (m : Manager σ)
    (db_type host : String) (port : Option Int) (creds : Credentials)
    (pr : String × ConnectionInfo σ)
    (htype : DatabaseConfig.validate_db_type db_type = true)
    (hdrv : driver_available m db_type = true)
    (hcred : CredentialValidator.validate_credentials env.sys db_type host creds = true)
    (hcap : m.connections.length < m.max_connections)
    (hreg : lookupConn m (generate_connection_id env db_type host creds) = some pr) :
    connect_database env m db_type host port creds
      = (Except.ok (generate_connection_id env db_type host creds), m) :=
  connect_returns_existing env m db_type host port creds pr htype hdrv hcred hcap hreg

/-- Claim C1, witness for the amended theorem at a concrete below-capacity
registry. -/
theorem connect_reuse_below_capacity_witness :
    connect_database baseEnv mgrOne "sqlite" "localhost" none credsA
      = (Except.ok (generate_connection_id baseEnv "sqlite" "localhost" credsA), mgrOne) :=
  connect_reuse_below_capacity baseEnv mgrOne "sqlite" "localhost" none credsA
    ("sqlite:localhost::", info0) rfl rfl rfl (by decide) rfl

/-! ## C3 — the row-limit clamp -/

/-- Claim C3, counterexample: an `execute` call with rowLimit = 5000 on a
statement without a limiting clause is answered by the parameter-validation
error `"Limit cannot exceed 1000 rows"` and never reaches the engine — no
statement carrying `LIMIT 1000` is delegated, contrary to the claimed
clamping. -/
theorem row_limit_5000_rejected_not_clamped :
    tool_execute_query baseEnv mgrOne "sqlite:localhost::" "SELECT * FROM users"
        none (some 5000)
      = (ToolResponse.errorResponse
          "Invalid query parameters: Limit cannot exceed 1000 rows"
          "INVALID_QUERY_PARAMS", mgrOne) :=
  rfl

/-- Claim C3 (amended): a caller-supplied rowLimit above 1000 is rejected by
`validate_query_params` with `"Limit cannot exceed 1000 rows"` before any
engine call, the registry left untouched; the `min(limit, 1000)` clamp in
the limit-appending step therefore only ever sees accepted limits, so a
statement without a limiting keyword is extended with `LIMIT limit` for
`1 ≤ limit ≤ 1000` — the engine never receives a limit above 1000. -/
theorem row_limit_validated_not_clamped {σ} (env : Env σ) (m : Manager σ)
    (cid q : String) (schema : Option String) (l : Int) (q2 : String) (l2 : Int)
    (hne : pyStrip q ≠ "") (hlen : q.length ≤ 10000) (hl : 1000 < l)
    (hl2a : 1 ≤ l2) (hl2b : l2 ≤ 1000)
    (hkw : containsStr (pyStrip (pyLower q2)) "limit" = false) :
    tool_execute_query env m cid q schema (some l)
      = (ToolResponse.errorResponse
          "Invalid query parameters: Limit cannot exceed 1000 rows"
          "INVALID_QUERY_PARAMS", m)
  ∧ applied_query q2 (some l2) = q2 ++ " LIMIT " ++ toString l2 := by
  have hq0 : q ≠ "" := by
    intro h
    exact hne (by rw [h]; rfl)
  constructor
  · have hvp : validate_query_params q (some l) schema
        = (false, "Limit cannot exceed 1000 rows") := by
      unfold validate_query_params
      have h1 : (q == "" || pyStrip q == "") = false := by
        simp [hq0, hne]
      rw [h1]
      simp only [Bool.false_eq_true, if_false]
      have h2 : ¬(10000 < q.length) := by omega
      have h3 : ¬(l < 1) := by omega
      simp [h2, h3, hl]
    unfold tool_execute_query
    rw [hvp]
    rfl
  · unfold applied_query
    have h4 : (l2 != 0) = true := by
      simp only [bne_iff_ne, ne_eq]
      omega
    rw [hkw]
    simp [h4, min_eq_left hl2b]

/-- Claim C3, witness for the amended theorem: rowLimit 5000 is rejected for
`"SELECT * FROM users"`, and an accepted rowLimit 7 appends `LIMIT 7`. -/
theorem row_limit_validated_not_clamped_witness :
    tool_execute_query baseEnv mgrOne "sqlite:localhost::" "SELECT * FROM users"
        none (some 5000)
      = (ToolResponse.errorResponse
          "Invalid query parameters: Limit cannot exceed 1000 rows"
          "INVALID_QUERY_PARAMS", mgrOne)
  ∧ applied_query "SELECT 1" (some 7) = "SELECT 1 LIMIT 7" :=
  row_limit_validated_not_clamped baseEnv mgrOne "sqlite:localhost::"
    "SELECT * FROM users" none 5000 "SELECT 1" 7
    (by decide) (by decide) (by decide) (by decide) (by decide) (by decide)

/-! ## C4 — the sqlite fingerprint ignores database_path -/

/-- Claim C4: `_generate_connection_id` hashes only db_type, host, username
and database, none of which sqlite credentials require, so two sqlite
connect requests to the same host that differ only in `database_path`
produce the same connection id — and, with the first connection still
registered (below capacity), the second request is answered with the
session opened for the first database file, the registry unchanged. -/
theorem sqlite_connection_id_ignores_path {σ} (env : Env σ) (m : Manager σ)
    (host : String) (port : Option Int) (creds1 creds2 : Credentials)
    (pr : String × ConnectionInfo σ)
    (hU : credGet creds2 "username" = credGet creds1 "username")
    (hD : credGet creds2 "database" = credGet creds1 "database")
    (hreg : lookupConn m (generate_connection_id env "sqlite" host creds1) = some pr)
    (hdrv : m.sqlite_available = true)
    (hcred : CredentialValidator.validate_credentials env.sys "sqlite" host creds2 = true)
    (hcap : m.connections.length < m.max_connections) :
    generate_connection_id env "sqlite" host creds2
      = generate_connection_id env "sqlite" host creds1
  ∧ connect_database env m "sqlite" host port creds2
      = (Except.ok (generate_connection_id env "sqlite" host creds1), m) := by
  have hgen : generate_connection_id env "sqlite" host creds2
      = generate_connection_id env "sqlite" host creds1 := by
    unfold generate_connection_id
    rw [hU, hD]
  refine ⟨hgen, ?_⟩
  have hdrv' : driver_available m "sqlite" = true := by
    unfold driver_available
    simpa using hdrv
  rw [show connect_database env m "sqlite" host port creds2
        = (Except.ok (generate_connection_id env "sqlite" host creds2), m) from
      connect_returns_existing env m "sqlite" host port creds2 pr
        rfl hdrv' hcred hcap (hgen ▸ hreg), hgen]

/-- Claim C4, witness: the paths `a.db` and `b.db` produce the same
fingerprint, and connecting to `b.db` while the `a.db` session is
registered returns the `a.db` session. -/
theorem sqlite_connection_id_ignores_path_witness :
    generate_connection_id baseEnv "sqlite" "localhost" credsB
      = generate_connection_id baseEnv "sqlite" "localhost" credsA
  ∧ connect_database baseEnv mgrOne "sqlite" "localhost" none credsB
      = (Except.ok (generate_connection_id baseEnv "sqlite" "localhost" credsA), mgrOne) :=
  sqlite_connection_id_ignores_path baseEnv mgrOne "localhost" none credsA credsB
    ("sqlite:localhost::", info0) rfl rfl rfl rfl (by decide) (by decide)

/-! ## C2 — the metadata-namespace nesting exception -/

/-- Claim C2, counterexample: the claim predicts that the flat
information_schema statement wrapped in two additional subquery levels is
rejected for nesting, and that the metadata threshold is looser than the
general cap of 3.  In the code `_validate_metadata_access` accepts up to
2 parentheses — so the doubly wrapped statement (count 2) is accepted. -/
theorem metadata_double_wrap_accepted :
    countParen (pyUpper (pyStrip doubleWrapMetaQuery)) = 2
  ∧ is_safe_query doubleWrapMetaQuery = true :=
  ⟨by decide, by decide⟩

/-- Claim C2 (amended): a statement that begins with an allowed verb, is
within the length cap, matches no file-operation, denied-verb or injection
pattern, references a recognized metadata namespace, and does not match the
UNION-with-information_schema pattern is accepted by `is_safe_query`
exactly when its parenthesis count is at most 2 — a threshold tighter, not
looser, than the general nesting cap of 3.  The flat example is safe; the
doubly wrapped variant is still safe; rejection for nesting needs three or
more added parentheses. -/
theorem metadata_nesting_exception (q qU : String)
    (hqU : qU = pyUpper (pyStrip q))
    (hne : pyStrip q ≠ "")
    (hstart : startsWithAllowed qU = true)
    (hlen : q.length ≤ 10000)
    (hfile : contains_file_operations qU = false)
    (hdang : contains_dangerous_operations qU = false)
    (hinj : contains_injection_patterns qU = false)
    (hmeta : contains_metadata_access qU = true)
    (hunion : rsearch unionInfoSchemaPat qU = false) :
    is_safe_query q = decide (countParen qU ≤ 2) := by
  subst hqU
  have hq0 : q ≠ "" := fun h => hne (by rw [h]; rfl)
  have hb1 : (q == "") = false := beq_eq_false_iff_ne.mpr hq0
  have hb2 : (pyStrip q == "") = false := beq_eq_false_iff_ne.mpr hne
  have hlen' : decide (10000 < q.length) = false := decide_eq_false (by omega)
  simp [is_safe_query, validate_metadata_access, hb1, hb2, hstart, hlen',
    hfile, hdang, hinj, hmeta, hunion]

/-- Claim C2, witness: the flat example is accepted (count 0 ≤ 2) via the
amended theorem, and the triply wrapped variant (count 3) is rejected. -/
theorem metadata_nesting_exception_witness :
    is_safe_query flatMetaQuery
      = decide (countParen (pyUpper (pyStrip flatMetaQuery)) ≤ 2)
  ∧ is_safe_query tripleWrapMetaQuery = false :=
  ⟨metadata_nesting_exception flatMetaQuery _ rfl (by decide) (by decide)
      (by decide) (by decide) (by decide) (by decide) (by decide) (by decide),
    by decide⟩

/-! ## C5 — the denied-verb scan -/

/-- Shared lemma: the pipeline of `is_safe_query` rejects any statement the
denied-verb scan flags, whatever the outcome of the earlier checks. -/
theorem is_safe_false_of_dangerous (q : String)
    (hdang : contains_dangerous_operations (pyUpper (pyStrip q)) = true) :
    is_safe_query q = false := by
  rcases Bool.eq_false_or_eq_true (q == "" || pyStrip q == "") with h0 | h0 <;>
  rcases Bool.eq_false_or_eq_true (startsWithAllowed (pyUpper (pyStrip q))) with h1 | h1 <;>
  rcases Bool.eq_false_or_eq_true (decide (10000 < q.length)) with h2 | h2 <;>
  rcases Bool.eq_false_or_eq_true (contains_file_operations (pyUpper (pyStrip q))) with h3 | h3 <;>
  simp [is_safe_query, h0, h1, h2, h3, hdang]

/-- Claim C5: any statement containing one of the fifteen denied verbs as a
whole word anywhere (the search runs on the upper-cased stripped statement,
so the scan is case-insensitive) is rejected by `is_safe_query`, and the
security report's violation list contains an entry naming a denied verb
that does occur in the statement — even when the statement begins with an
allowed verb. -/
theorem denied_verb_rejected_anywhere (q v : String)
    (hv : v ∈ dangerousOperations)
    (hocc : rsearch (wordPat v) (pyUpper (pyStrip q)) = true)
    (hne : pyStrip q ≠ "") :
    is_safe_query q = false
  ∧ ((get_security_report q).violations.any (fun msg =>
      dangerousOperations.any (fun op =>
        msg == "Contains dangerous operation: \\b" ++ op ++ "\\b"
          && rsearch (wordPat op) (pyUpper (pyStrip q))))) = true := by
  have hdang : contains_dangerous_operations (pyUpper (pyStrip q)) = true :=
    List.any_eq_true.mpr ⟨v, hv, hocc⟩
  refine ⟨is_safe_false_of_dangerous q hdang, ?_⟩
  have hq0 : q ≠ "" := fun h => hne (by rw [h]; rfl)
  have hb1 : (q == "") = false := beq_eq_false_iff_ne.mpr hq0
  have hb2 : (pyStrip q == "") = false := beq_eq_false_iff_ne.mpr hne
  have hfind : (dangerousOperations.find?
      (fun op => rsearch (wordPat op) (pyUpper (pyStrip q)))).isSome := by
    rw [List.find?_isSome]
    exact ⟨v, hv, hocc⟩
  obtain ⟨op, hop⟩ := Option.isSome_iff_exists.mp hfind
  have hopP : rsearch (wordPat op) (pyUpper (pyStrip q)) = true := by
    have h := List.find?_some hop
    simpa using h
  have hopMem : op ∈ dangerousOperations := List.mem_of_find?_eq_some hop
  rw [List.any_eq_true]
  refine ⟨"Contains dangerous operation: \\b" ++ op ++ "\\b", ?_, ?_⟩
  · simp [get_security_report, hb1, hb2, hop]
  · rw [List.any_eq_true]
    exact ⟨op, hopMem, by simp [hopP]⟩

/-- Claim C5, witness: `SELECT * FROM (DELETE FROM logs RETURNING *) x` is
rejected and its report names the DELETE verb. -/
theorem denied_verb_rejected_anywhere_witness :
    is_safe_query deniedVerbExample = false
  ∧ ((get_security_report deniedVerbExample).violations.any (fun msg =>
      dangerousOperations.any (fun op =>
        msg == "Contains dangerous operation: \\b" ++ op ++ "\\b"
          && rsearch (wordPat op) (pyUpper (pyStrip deniedVerbExample))))) = true :=
  denied_verb_rejected_anywhere deniedVerbExample "DELETE"
    (by decide) (by decide) (by decide)

/-! ## Registry lemmas shared by the connection-lifecycle claims -/

/-- When the driver close succeeds on every registered session, `disconnect`
leaves exactly the entries with a different key. -/
theorem disconnect_connections {σ} (env : Env σ) (m : Manager σ) (cid : String)
    (hclose : ∀ p ∈ m.connections, env.engineClose p.2.connection = Except.ok ()) :
    (disconnect env m cid).2
      = { m with connections := m.connections.filter (fun p => p.1 != cid) } := by
  unfold disconnect
  cases hfind : lookupConn m cid with
  | none =>
    have hid : m.connections.filter (fun p => p.1 != cid) = m.connections := by
      apply List.filter_eq_self.mpr
      intro a ha
      have hne := List.find?_eq_none.mp hfind a ha
      simpa [bne] using hne
    simp [hid]
  | some pr =>
    obtain ⟨k, info⟩ := pr
    have hmem : (k, info) ∈ m.connections := List.mem_of_find?_eq_some hfind
    have hok : env.engineClose info.connection = Except.ok () := hclose (k, info) hmem
    cases hdt : exact_db_type info.db_type <;> simp [hdt, hok]

/-- Folding `disconnect` over a list of ids removes exactly the entries
whose key is in the list (all closes succeeding). -/
theorem foldl_disconnect {σ} (env : Env σ) (ids : List String) (m : Manager σ)
    (hclose : ∀ p ∈ m.connections, env.engineClose p.2.connection = Except.ok ()) :
    ids.foldl (fun acc cid => (disconnect env acc cid).2) m
      = { m with connections :=
          m.connections.filter (fun p => !(decide (p.1 ∈ ids))) } := by
  induction ids generalizing m with
  | nil => simp
  | cons a as ih =>
    rw [List.foldl_cons, disconnect_connections env m a hclose]
    rw [ih _ (fun p hp => hclose p (List.mem_of_mem_filter hp))]
    congr 1
    rw [List.filter_filter]
    apply List.filter_congr
    intro p _
    by_cases hpa : p.1 = a <;> by_cases hmem : p.1 ∈ as <;>
      simp [hpa, hmem, bne]

/-- Looking up a key after mapping the key-preserving usage update. -/
theorem lookup_map_update {σ} (env : Env σ)
    (l : List (String × ConnectionInfo σ)) (cid : String) :
    List.find? (fun p => p.1 == cid) (usage_update env cid l)
      = (List.find? (fun p => p.1 == cid) l).map
          (fun p => (p.1, updateInfo env p.2)) := by
  unfold usage_update
  induction l with
  | nil => rfl
  | cons a t ih =>
    cases h : (a.1 == cid) with
    | true =>
      rw [List.map_cons, if_pos h, List.find?_cons, List.find?_cons]
      dsimp only
      rw [h]
      rfl
    | false =>
      rw [List.map_cons, if_neg (by simp [h]), List.find?_cons, List.find?_cons]
      rw [h, ih]

/-! ## C6 — the capacity bound -/

/-- Claim C6: with the registry at its configured maximum, a connect request
whose fingerprint is not registered (and which passes type, driver and
credential validation) fails with the capacity error and leaves the
registry unchanged; after disconnecting one registered entry, the same
distinct request succeeds and returns its fresh fingerprint. -/
theorem capacity_error_and_recovery {σ} (env : Env σ) (m : Manager σ)
    (db_type host : String) (port : Option Int) (creds : Credentials)
    (cid0 : String) (pr0 : String × ConnectionInfo σ) (conn : σ)
    (htype : DatabaseConfig.validate_db_type db_type = true)
    (hdrv : driver_available m db_type = true)
    (hexact : exact_db_type db_type = true)
    (hcred : CredentialValidator.validate_credentials env.sys db_type host creds = true)
    (hfull : m.connections.length = m.max_connections)
    (hnew : lookupConn m (generate_connection_id env db_type host creds) = none)
    (hreg0 : lookupConn m cid0 = some pr0)
    (hclose : ∀ p ∈ m.connections, env.engineClose p.2.connection = Except.ok ())
    (hconn : env.engineConnect db_type host (effective_port db_type port) creds
      = Except.ok conn) :
    connect_database env m db_type host port creds
      = (Except.error (ConnectErr.capacityReached m.max_connections), m)
  ∧ (disconnect env m cid0).1 = true
  ∧ (connect_database env (disconnect env m cid0).2 db_type host port creds).1
      = Except.ok (generate_connection_id env db_type host creds) := by
  have hreg0' : List.find? (fun p => p.1 == cid0) m.connections = some pr0 := hreg0
  have hfst0 : (pr0.1 == cid0) = true := by
    simpa using List.find?_some hreg0'
  have hmem0 : pr0 ∈ m.connections := List.mem_of_find?_eq_some hreg0'
  refine ⟨?_, ?_, ?_⟩
  · -- at capacity: the request is rejected before the reuse lookup
    have hval : validate_connection_request env m db_type host creds
        = some (.capacityReached m.max_connections) := by
      unfold validate_connection_request
      simp [htype, hdrv, hcred, Nat.le_of_eq hfull.symm]
    unfold connect_database
    rw [hval]
  · -- the disconnect succeeds
    obtain ⟨k, info⟩ := pr0
    unfold disconnect
    rw [hreg0]
    have hok : env.engineClose info.connection = Except.ok () :=
      hclose (k, info) hmem0
    cases hdt : exact_db_type info.db_type <;> simp [hdt, hok]
  · -- one slot is free again and the distinct fingerprint connects
    rw [disconnect_connections env m cid0 hclose]
    have hlt : (m.connections.filter (fun p => p.1 != cid0)).length
        < m.connections.length := by
      apply List.length_filter_lt_length_iff_exists.mpr
      exact ⟨pr0, hmem0, by simp [bne, hfst0]⟩
    have hcap2 : ¬(m.max_connections
        ≤ (m.connections.filter (fun p => p.1 != cid0)).length) := by omega
    have hval : validate_connection_request env
        { m with connections := m.connections.filter (fun p => p.1 != cid0) }
        db_type host creds = none := by
      unfold validate_connection_request
      have hdrv' : driver_available
          { m with connections := m.connections.filter (fun p => p.1 != cid0) }
          db_type = true := by
        unfold driver_available at hdrv ⊢
        exact hdrv
      simp [htype, hdrv', hcred, hcap2]
    unfold connect_database
    rw [hval]
    have hnew0 : List.find? (fun p => p.1 == generate_connection_id env db_type host creds)
        m.connections = none := hnew
    have hnew' : lookupConn
        { m with connections := m.connections.filter (fun p => p.1 != cid0) }
        (generate_connection_id env db_type host creds) = none := by
      unfold lookupConn
      apply List.find?_eq_none.mpr
      intro p hp
      exact List.find?_eq_none.mp hnew0 p (List.mem_of_mem_filter hp)
    simp [hnew', hexact, hconn]

/-- Claim C6, witness: a full one-slot registry rejects a distinct sqlite
request for capacity; after disconnecting the registered session the same
request succeeds. -/
theorem capacity_error_and_recovery_witness :
    connect_database baseEnv mgrFull "sqlite" "127.0.0.1" none credsA
      = (Except.error (ConnectErr.capacityReached 1), mgrFull)
  ∧ (disconnect baseEnv mgrFull "sqlite:localhost::").1 = true
  ∧ (connect_database baseEnv (disconnect baseEnv mgrFull "sqlite:localhost::").2
        "sqlite" "127.0.0.1" none credsA).1
      = Except.ok (generate_connection_id baseEnv "sqlite" "127.0.0.1" credsA) :=
  capacity_error_and_recovery baseEnv mgrFull "sqlite" "127.0.0.1" none credsA
    "sqlite:localhost::" ("sqlite:localhost::", info0) ()
    (by decide) (by decide) (by decide) (by decide) (by decide) (by decide)
    (by decide) (fun p _ => rfl) rfl

/-! ## C7 — execution-error containment -/

/-- Claim C7: once a statement has passed security validation on a
registered connection id, a raising driver execution is caught:
`execute_query` answers with the structured envelope
`success := false, error := the driver's message` instead of propagating,
and the connection record stays in the registry (with its usage fields
updated), usable for subsequent statements. -/
theorem execution_error_contained {σ} (env : Env σ) (m : Manager σ)
    (cid : String) (pr : String × ConnectionInfo σ) (q : String)
    (schema : Option String) (msg : String)
    (hreg : lookupConn m cid = some pr)
    (hsafe : is_safe_query q = true)
    (hexact : exact_db_type pr.2.db_type = true)
    (heng : env.engineExecute pr.2.db_type pr.2.connection pr.2.database q schema
      = Except.error msg) :
    (execute_query env m cid q schema).1
      = Except.ok { success := false, error := some msg }
  ∧ lookupConn (execute_query env m cid q schema).2 cid
      = some (pr.1, updateInfo env pr.2) := by
  obtain ⟨k, info⟩ := pr
  have hexec : execute_query env m cid q schema
      = (Except.ok { success := false, error := some msg },
         { m with connections := usage_update env cid m.connections }) := by
    unfold execute_query
    rw [hreg]
    simp [hsafe, updateInfo, hexact, heng]
  rw [hexec]
  refine ⟨rfl, ?_⟩
  show List.find? (fun p => p.1 == cid) (usage_update env cid m.connections)
    = some (k, updateInfo env info)
  rw [lookup_map_update]
  rw [show List.find? (fun p => p.1 == cid) m.connections = some (k, info) from hreg]
  rfl

/-- Claim C7, witness: a failing driver call on the registered sqlite
session yields the structured failure envelope and the record stays. -/
theorem execution_error_contained_witness :
    (execute_query envExecFail mgrOne "sqlite:localhost::" "SELECT 1" none).1
      = Except.ok { success := false, error := some "boom" }
  ∧ lookupConn (execute_query envExecFail mgrOne "sqlite:localhost::" "SELECT 1" none).2
        "sqlite:localhost::"
      = some ("sqlite:localhost::", updateInfo envExecFail info0) :=
  execution_error_contained envExecFail mgrOne "sqlite:localhost::"
    ("sqlite:localhost::", info0) "SELECT 1" none "boom" rfl (by decide) rfl rfl

/-! ## C9 — usage-accounting frame effect of execute_query -/

/-- Claim C9: after a successful lookup and security check, `execute_query`
updates the record's `last_used` to the current clock and increments
`query_count` before delegating — the new state is exactly the old one with
that single key-preserving update, whatever the engine outcome, and no
other record or field changes; on an unknown connection id or a security
rejection it raises the corresponding error and the state is returned
untouched. -/
theorem execute_updates_usage_fields {σ} (env : Env σ)
    (m1 : Manager σ) (cid1 : String) (pr1 : String × ConnectionInfo σ)
    (q1 : String) (s1 : Option String)
    (m2 : Manager σ) (cid2 q2 : String) (s2 : Option String)
    (m3 : Manager σ) (cid3 : String) (pr3 : String × ConnectionInfo σ)
    (q3 : String) (s3 : Option String)
    (hreg1 : lookupConn m1 cid1 = some pr1) (hsafe1 : is_safe_query q1 = true)
    (hnone2 : lookupConn m2 cid2 = none)
    (hreg3 : lookupConn m3 cid3 = some pr3) (hunsafe3 : is_safe_query q3 = false) :
    (execute_query env m1 cid1 q1 s1).2
      = { m1 with connections := usage_update env cid1 m1.connections }
  ∧ execute_query env m2 cid2 q2 s2 = (Except.error ExecErr.invalidConnectionId, m2)
  ∧ execute_query env m3 cid3 q3 s3 = (Except.error ExecErr.queryNotAllowed, m3) := by
  refine ⟨?_, ?_, ?_⟩
  · obtain ⟨k, info⟩ := pr1
    unfold execute_query
    rw [hreg1]
    simp only [hsafe1, Bool.not_true, Bool.false_eq_true, if_false]
    split <;> rfl
  · unfold execute_query
    rw [hnone2]
  · obtain ⟨k, info⟩ := pr3
    unfold execute_query
    rw [hreg3]
    simp [hunsafe3]

/-- Claim C9, witness: a safe statement on the registered id produces
exactly the usage-updated state; an unknown id and an unsafe statement
error out with the state untouched. -/
theorem execute_updates_usage_fields_witness :
    (execute_query baseEnv mgrOne "sqlite:localhost::" "SELECT 1" none).2
      = { mgrOne with connections :=
          usage_update baseEnv "sqlite:localhost::" mgrOne.connections }
  ∧ execute_query baseEnv mgrOne "missing" "SELECT 1" none
      = (Except.error ExecErr.invalidConnectionId, mgrOne)
  ∧ execute_query baseEnv mgrOne "sqlite:localhost::" "DROP TABLE x" none
      = (Except.error ExecErr.queryNotAllowed, mgrOne) :=
  execute_updates_usage_fields baseEnv mgrOne "sqlite:localhost::"
    ("sqlite:localhost::", info0) "SELECT 1" none mgrOne "missing" "SELECT 1" none
    mgrOne "sqlite:localhost::" ("sqlite:localhost::", info0) "DROP TABLE x" none
    rfl (by decide) rfl rfl (by decide)

/-! ## C8 — the idle sweep -/

/-- Claim C8: `cleanup_stale_connections maxIdle` removes exactly the
records whose idle time `now - last_used` strictly exceeds `maxIdle`,
leaves every other record registered, and returns the number evicted
(here every driver close succeeds and the registry keys are unique, as a
Python dict guarantees); a subsequent `execute_query` against an evicted
id fails with the unknown-connection error. -/
theorem cleanup_stale_sweeps {σ} (env : Env σ) (m : Manager σ) (max_idle : Nat)
    (cid : String) (info : ConnectionInfo σ) (q : String) (schema : Option String)
    (hnodup : (m.connections.map Prod.fst).Nodup)
    (hclose : ∀ p ∈ m.connections, env.engineClose p.2.connection = Except.ok ())
    (hmem : (cid, info) ∈ m.connections)
    (hstale : max_idle < env.now - info.last_used) :
    (cleanup_stale_connections env m max_idle).1
      = (m.connections.filter (stalePred env max_idle)).length
  ∧ (cleanup_stale_connections env m max_idle).2.connections
      = m.connections.filter (fun p => !(stalePred env max_idle p))
  ∧ execute_query env (cleanup_stale_connections env m max_idle).2 cid q schema
      = (Except.error ExecErr.invalidConnectionId,
          (cleanup_stale_connections env m max_idle).2) := by
  have hstate : (cleanup_stale_connections env m max_idle).2.connections
      = m.connections.filter (fun p => !(stalePred env max_idle p)) := by
    unfold cleanup_stale_connections
    dsimp only
    rw [foldl_disconnect env _ m hclose]
    dsimp only
    apply List.filter_congr
    intro p hp
    congr 1
    cases hsp : stalePred env max_idle p with
    | true =>
      have hin : p.1 ∈ (m.connections.filter (stalePred env max_idle)).map Prod.fst :=
        List.mem_map_of_mem _ (List.mem_filter.mpr ⟨hp, hsp⟩)
      simp [hin]
    | false =>
      have hout : p.1 ∉ (m.connections.filter (stalePred env max_idle)).map Prod.fst := by
        intro hin
        obtain ⟨r, hr, hr1⟩ := List.mem_map.mp hin
        obtain ⟨hrmem, hrs⟩ := List.mem_filter.mp hr
        have hrp : r = p := List.inj_on_of_nodup_map hnodup hrmem hp hr1
        rw [hrp, hsp] at hrs
        exact Bool.false_ne_true hrs
      simp [hout]
  refine ⟨?_, hstate, ?_⟩
  · unfold cleanup_stale_connections
    dsimp only
    rw [List.length_map]
  · have hnone : lookupConn (cleanup_stale_connections env m max_idle).2 cid = none := by
      unfold lookupConn
      rw [hstate]
      apply List.find?_eq_none.mpr
      intro p hp hbeq
      obtain ⟨hpmem, hps⟩ := List.mem_filter.mp hp
      have hp1 : p.1 = cid := by simpa using hbeq
      have hpe : p = (cid, info) :=
        List.inj_on_of_nodup_map hnodup hpmem hmem (by simpa using hp1)
      rw [hpe] at hps
      simp [stalePred, hstale] at hps
    unfold execute_query
    rw [hnone]

/-- Claim C8, witness: with the clock at 1000 and threshold 100, the sweep
evicts exactly the connection idle since 0, keeps the one used at 990, and
a subsequent execute on the evicted id errors. -/
theorem cleanup_stale_sweeps_witness :
    (cleanup_stale_connections baseEnv mgrTwo 100).1
      = (mgrTwo.connections.filter (stalePred baseEnv 100)).length
  ∧ (cleanup_stale_connections baseEnv mgrTwo 100).2.connections
      = mgrTwo.connections.filter (fun p => !(stalePred baseEnv 100 p))
  ∧ execute_query baseEnv (cleanup_stale_connections baseEnv mgrTwo 100).2
        "stale" "SELECT 1" none
      = (Except.error ExecErr.invalidConnectionId,
          (cleanup_stale_connections baseEnv mgrTwo 100).2) :=
  cleanup_stale_sweeps baseEnv mgrTwo 100 "stale" infoStale "SELECT 1" none
    (by decide) (fun p _ => rfl) (by decide) (by decide)

/-! ## C10 — disconnect never raises and is idempotent in outcome -/

/-- Claim C10: disconnecting an unknown connection id returns `false` with
the state unchanged; disconnecting the same id twice returns `false` the
second time whatever happened the first; and a disconnect whose driver
close raises is caught and reported as `false` (the record kept) rather
than propagated. -/
theorem disconnect_never_raises_idempotent {σ} (env : Env σ)
    (m1 : Manager σ) (cid1 : String) (m2 : Manager σ) (cid2 : String)
    (m3 : Manager σ) (cid3 : String) (pr : String × ConnectionInfo σ) (msg : String)
    (h1 : lookupConn m1 cid1 = none)
    (h3a : lookupConn m3 cid3 = some pr)
    (h3b : exact_db_type pr.2.db_type = true)
    (h3c : env.engineClose pr.2.connection = Except.error msg) :
    disconnect env m1 cid1 = (false, m1)
  ∧ (disconnect env (disconnect env m2 cid2).2 cid2).1 = false
  ∧ disconnect env m3 cid3 = (false, m3) := by
  refine ⟨?_, ?_, ?_⟩
  · unfold disconnect
    rw [h1]
  · cases hfind : lookupConn m2 cid2 with
    | none =>
      have hd : disconnect env m2 cid2 = (false, m2) := by
        unfold disconnect
        rw [hfind]
      rw [hd]
      unfold disconnect
      rw [hfind]
    | some pr2 =>
      obtain ⟨k, info⟩ := pr2
      cases hcl : (if exact_db_type info.db_type then env.engineClose info.connection
          else Except.ok ()) with
      | error e =>
        have hd : disconnect env m2 cid2 = (false, m2) := by
          unfold disconnect
          rw [hfind]
          dsimp only
          rw [hcl]
        rw [hd]
        rw [hd]
      | ok u =>
        have hd : (disconnect env m2 cid2).2
            = { m2 with connections := m2.connections.filter (fun p => p.1 != cid2) } := by
          unfold disconnect
          rw [hfind]
          dsimp only
          rw [hcl]
        rw [hd]
        have hnone : lookupConn
            { m2 with connections := m2.connections.filter (fun p => p.1 != cid2) }
            cid2 = none := by
          unfold lookupConn
          apply List.find?_eq_none.mpr
          intro p hp hbeq
          have hne := (List.mem_filter.mp hp).2
          simp [bne, hbeq] at hne
        unfold disconnect
        rw [hnone]
  · obtain ⟨k, info⟩ := pr
    unfold disconnect
    rw [h3a]
    dsimp only
    rw [if_pos h3b, h3c]

/-- Claim C10, witness: unknown id → `false`; double disconnect → `false`;
failing driver close → `false` with the record kept. -/
theorem disconnect_never_raises_idempotent_witness :
    disconnect envCloseFail mgrEmpty1 "missing" = (false, mgrEmpty1)
  ∧ (disconnect envCloseFail (disconnect envCloseFail mgrOne "sqlite:localhost::").2
        "sqlite:localhost::").1 = false
  ∧ disconnect envCloseFail mgrOne "sqlite:localhost::" = (false, mgrOne) :=
  disconnect_never_raises_idempotent envCloseFail mgrEmpty1 "missing" mgrOne
    "sqlite:localhost::" mgrOne "sqlite:localhost::" ("sqlite:localhost::", info0)
    "close failed" rfl rfl rfl rfl

end DatabaseMCP
